import Mathlib

/-!
Verification of the dwv DICOM SEG mask decoder (dwv.image.MaskFactory and its
dicom helpers).  Javascript numbers are modelled as rationals; DICOM element
values that the source keeps as javascript strings or numbers are modelled by
the type `DicomVal` below.  Fallible code is modelled in `Except Err`, and a
provably non-terminating loop of the source is modelled by `Option` with
`none` for divergence.
-/

/-- A DICOM element value as held in javascript: either a decimal string
(`str q`, modelled by its rational value) or a number (`num q`).  Javascript
strict equality distinguishes strings from numbers, which the two
constructors capture; distinct spellings of the same decimal string
(for example "1" and "1.0") are not distinguished by the model. -/
inductive DicomVal
  | str (q : ℚ)
  | num (q : ℚ)
deriving DecidableEq

/-- Javascript parseFloat as used on DICOM decimal strings: the value of a
decimal string, and a number parses back to itself. -/
def parseFloatVal : DicomVal → ℚ
  | .str q => q
  | .num q => q

/-- An image position patient, a javascript array of numbers. -/
abbrev Pos := List ℚ

/-- dwv.dicom.equalPosPat: JSON.stringify equality of the two arrays.  On
arrays of numbers JSON serialization is componentwise and injective, so the
model is structural equality of the lists. -/
def equalPosPat (pos1 pos2 : Pos) : Bool :=
  pos1 == pos2

/-- The loop body of dwv.dicom.comparePosPat over the (reversed) index list:
return the first nonzero pos2[i] - pos1[i], or the last computed difference
(zero) when none is nonzero. -/
def comparePosPatGo (pos1 pos2 : Pos) : List ℕ → ℚ
  | [] => 0
  | i :: is =>
    let diff := pos2.getD i 0 - pos1.getD i 0
    if diff = 0 then comparePosPatGo pos1 pos2 is else diff

/-- dwv.dicom.comparePosPat: walk the indices of pos1 from the last to the
first and return the first nonzero pos2[index] - pos1[index]; the source
returns null (here none) for an empty pos1 and 0 when all components agree.
The positions compared by the decoder are equal-length triples, so the
out-of-range read of pos2 never happens in its uses. -/
def comparePosPat (pos1 pos2 : Pos) : Option ℚ :=
  if pos1.length = 0 then none
  else some (comparePosPatGo pos1 pos2 (List.range pos1.length).reverse)

/-- Insertion step for the model of Array.prototype.sort. -/
def insertPosPat (p : Pos) : List Pos → List Pos
  | [] => [p]
  | q :: qs =>
    if (comparePosPat p q).getD 0 ≤ 0 then p :: q :: qs
    else q :: insertPosPat p qs

/-- framePosPats.sort(dwv.dicom.comparePosPat): Array.prototype.sort with a
consistent comparator orders the array so that x precedes y whenever
comparator(x, y) < 0; it is modelled as a stable insertion sort on that
order.  In the decoder the sorted list has pairwise distinct entries, for
which this order is total and the sorted result unique. -/
def sortPosPat : List Pos → List Pos
  | [] => []
  | p :: ps => insertPosPat p (sortPosPat ps)

/-- The includesPosPat closure of MaskFactory.create. -/
def includesPosPat (arr : List Pos) (val : Pos) : Bool :=
  arr.any (fun arrVal => equalPosPat val arrVal)

/-- The findIndexPosPat closure of MaskFactory.create; javascript findIndex
returns -1 when no entry matches, modelled as none. -/
def findIndexPosPat (arr : List Pos) (val : Pos) : Option ℕ :=
  arr.findIdx? (fun arrVal => equalPosPat val arrVal)

/-- The accumulation of unique frame positions (MaskFactory.create lines
500-503): keep the first occurrence of each position. -/
def dedupPosPats (positions : List Pos) : List Pos :=
  positions.foldl (fun acc p => if includesPosPat acc p then acc else acc ++ [p]) []

/-- The body of the inner while loop of the missing-position filling
(MaskFactory.create lines 544-548), iterated on an explicit fuel: while
|nextZ - framePosPats[g+1][2]| >= sliceSpacing, push the synthetic position
[x, y, nextZ] and decrement nextZ by sliceSpacing.  Each iteration of a
terminating run of the source loop has nextZ at least qz + s with a positive
s (otherwise decrementing nextZ only grows |nextZ - qz| and the source loops
forever), and such a run makes strictly fewer than fillGapFuel iterations;
exhausted fuel therefore only happens on diverging runs and yields none,
like the explicit divergence branch.  `fillGapLoop_eq` below proves that the
fueled function satisfies the defining equation of the source loop. -/
def fillGapRun (x y s qz : ℚ) : ℕ → ℚ → Option (List Pos)
  | 0, _ => none
  | fuel + 1, nextZ =>
    if s ≤ |nextZ - qz| then
      if 0 < s ∧ qz + s ≤ nextZ then
        (fillGapRun x y s qz fuel (nextZ - s)).map (fun rest => [x, y, nextZ] :: rest)
      else none
    else some []

/-- An iteration bound for `fillGapRun`: a terminating run starting at nextZ
makes at most ceil((nextZ - qz) / s) iterations. -/
def fillGapFuel (s qz nextZ : ℚ) : ℕ :=
  (Int.ceil ((nextZ - qz) / s)).toNat + 1

/-- The inner while loop of the missing-position filling (MaskFactory.create
lines 544-548); none models the source looping forever. -/
def fillGapLoop (x y s qz nextZ : ℚ) : Option (List Pos) :=
  fillGapRun x y s qz (fillGapFuel s qz nextZ) nextZ

theorem fillGapCeil_step (s qz nextZ : ℚ) (hs : 0 < s) :
    Int.ceil ((nextZ - s - qz) / s) = Int.ceil ((nextZ - qz) / s) - 1 := by
  have hq : (nextZ - s - qz) / s = (nextZ - qz) / s - 1 := by
    field_simp
    ring
  rw [hq, Int.ceil_sub_one]

theorem fillGapCeil_pos (s qz nextZ : ℚ) (hs : 0 < s) (hle : qz + s ≤ nextZ) :
    0 < Int.ceil ((nextZ - qz) / s) :=
  Int.ceil_pos.mpr (div_pos (by linarith) hs)

theorem fillGapRun_congr (x y s qz : ℚ) :
    ∀ (n m : ℕ) (nextZ : ℚ),
      (Int.ceil ((nextZ - qz) / s)).toNat < n →
      (Int.ceil ((nextZ - qz) / s)).toNat < m →
      fillGapRun x y s qz n nextZ = fillGapRun x y s qz m nextZ := by
  intro n
  induction n with
  | zero => omega
  | succ n ih =>
    intro m nextZ hn hm
    match m, hm with
    | m + 1, hm =>
      simp only [fillGapRun]
      by_cases h1 : s ≤ |nextZ - qz|
      · simp only [h1, if_true]
        by_cases h2 : 0 < s ∧ qz + s ≤ nextZ
        · simp only [h2, if_true]
          have hstep := fillGapCeil_step s qz nextZ h2.1
          have hpos := fillGapCeil_pos s qz nextZ h2.1 h2.2
          have hrec : (Int.ceil ((nextZ - s - qz) / s)).toNat < n := by omega
          have hrec2 : (Int.ceil ((nextZ - s - qz) / s)).toNat < m := by omega
          rw [ih m (nextZ - s) hrec hrec2]
        · simp only [h2, if_false]
      · simp only [h1, if_false]

/-- The fueled loop satisfies the defining equation of the source while loop
(and its run is uniquely determined by it, since the recursion strictly
decreases ceil((nextZ - qz) / s)). -/
theorem fillGapLoop_eq (x y s qz nextZ : ℚ) :
    fillGapLoop x y s qz nextZ =
      if s ≤ |nextZ - qz| then
        if 0 < s ∧ qz + s ≤ nextZ then
          (fillGapLoop x y s qz (nextZ - s)).map (fun rest => [x, y, nextZ] :: rest)
        else none
      else some [] := by
  unfold fillGapLoop fillGapFuel
  conv_lhs => rw [fillGapRun]
  by_cases h1 : s ≤ |nextZ - qz|
  · simp only [h1, if_true]
    by_cases h2 : 0 < s ∧ qz + s ≤ nextZ
    · simp only [h2, if_true]
      have hstep := fillGapCeil_step s qz nextZ h2.1
      have hpos := fillGapCeil_pos s qz nextZ h2.1 h2.2
      rw [fillGapRun_congr x y s qz (Int.ceil ((nextZ - qz) / s)).toNat
        ((Int.ceil ((nextZ - s - qz) / s)).toNat + 1) (nextZ - s) (by omega) (by omega)]
    · simp only [h2, if_false]
  · simp only [h1, if_false]

/-- The missing-position filling loop of MaskFactory.create (lines 540-550):
walk adjacent pairs of the sorted unique position list, pushing the first
element and then the synthetic positions produced by `fillGapLoop`, and
finally push the last element.  On an empty input the source would push a
single undefined entry (framePosPats[-1]); the decoder only reaches that
with an empty frame list, which no claim covers, and it is modelled as the
empty list. -/
def addMissingAux (s : ℚ) : List Pos → Option (List Pos)
  | [] => some []
  | [p] => some [p]
  | p :: q :: rest =>
    (fillGapLoop (p.getD 0 0) (p.getD 1 0) s (q.getD 2 0) (p.getD 2 0 - s)).bind
      (fun gap => (addMissingAux s (q :: rest)).map (fun tail => p :: (gap ++ tail)))

/-- The missing-position filling with the slice spacing as read by
spacing.get(2), which is undefined (none) when the spacing has only two
components: then every arithmetic comparison of the loop involves NaN and is
false, so no position is inserted and the list is returned as accumulated. -/
def addMissingPosPats (sliceSpacing : Option ℚ) (framePosPats : List Pos) : Option (List Pos) :=
  match sliceSpacing with
  | none => some framePosPats
  | some s => addMissingAux s framePosPats

/-- The position-set builder of MaskFactory.create: deduplicate the frame
positions (lines 500-503), sort them with comparePosPat (line 527), and fill
the gaps (lines 537-550). -/
def positionSetBuilder (sliceSpacing : Option ℚ) (positions : List Pos) : Option (List Pos) :=
  addMissingPosPats sliceSpacing (sortPosPat (dedupPosPats positions))

example : equalPosPat [1, 2, 3] [1, 2, 3] = true := by decide

example : equalPosPat [1, 2, 3] [1, 2, 4] = false := by decide

example : comparePosPat [0, 0, 1] [0, 0, 2] = some 1 := by with_unfolding_all decide

example : sortPosPat [[0, 0, 0], [0, 0, 2], [0, 0, 1]] = [[0, 0, 2], [0, 0, 1], [0, 0, 0]] := by
  with_unfolding_all decide

example : dedupPosPats [[0, 0, 10], [0, 0, 10], [0, 0, 6]] = [[0, 0, 10], [0, 0, 6]] := by
  with_unfolding_all decide

theorem fillGapLoop_isSome (x y s qz : ℚ) (hs : 0 < s) :
    ∀ (k : ℕ) (nextZ : ℚ), qz - s < nextZ → nextZ < qz + (k + 1) * s →
      ∃ g, fillGapLoop x y s qz nextZ = some g := by
  intro k
  induction k with
  | zero =>
    intro nextZ h1 h2
    norm_num at h2
    refine ⟨[], ?_⟩
    rw [fillGapLoop_eq, if_neg]
    rw [not_le, abs_sub_lt_iff]
    constructor <;> linarith
  | succ k ih =>
    intro nextZ h1 h2
    by_cases hc : s ≤ |nextZ - qz|
    · have hge : qz + s ≤ nextZ := by
        rcases le_abs.mp hc with h | h
        · linarith
        · linarith
      have hb : nextZ - s < qz + (↑k + 1) * s := by
        have he : (↑k + 1 + 1 : ℚ) * s = (↑k + 1) * s + s := by ring
        push_cast at h2
        rw [he] at h2
        linarith
      obtain ⟨g, hg⟩ := ih (nextZ - s) (by linarith) hb
      exact ⟨[x, y, nextZ] :: g, by rw [fillGapLoop_eq, if_pos hc, if_pos ⟨hs, hge⟩, hg]; rfl⟩
    · exact ⟨[], by rw [fillGapLoop_eq, if_neg hc]⟩

theorem fillGapLoop_terminates (x y s qz pz : ℚ) (hs : 0 < s) (hlt : qz < pz) :
    ∃ g, fillGapLoop x y s qz (pz - s) = some g := by
  obtain ⟨k, hk⟩ := exists_nat_gt ((pz - s - qz) / s)
  refine fillGapLoop_isSome x y s qz hs k (pz - s) (by linarith) ?_
  have h1 := (div_lt_iff₀ hs).mp hk
  have h2 : (↑k + 1 : ℚ) * s = ↑k * s + s := by ring
  rw [h2]
  linarith

theorem fillGapLoop_exact (x y s qz : ℚ) (hs : 0 < s) :
    fillGapLoop x y s qz qz = some [] := by
  rw [fillGapLoop_eq, if_neg]
  simp only [sub_self, abs_zero, not_le]
  exact hs

theorem addMissingAux_terminates (s : ℚ) (hs : 0 < s) :
    ∀ ps : List Pos, List.Chain' (fun p q => q.getD 2 0 < p.getD 2 0) ps →
      ∃ l, addMissingAux s ps = some l ∧ (∀ p ∈ ps, p ∈ l) ∧ ps.length ≤ l.length := by
  intro ps
  induction ps with
  | nil => exact fun _ => ⟨[], rfl, by simp, by simp⟩
  | cons p ps ih =>
    cases ps with
    | nil => exact fun _ => ⟨[p], rfl, by simp, by simp⟩
    | cons q rest =>
      intro hchain
      have hlt : q.getD 2 0 < p.getD 2 0 := (List.chain'_cons.mp hchain).1
      obtain ⟨tail, htail, hmem, hlen⟩ := ih (List.chain'_cons.mp hchain).2
      obtain ⟨gap, hgap⟩ :=
        fillGapLoop_terminates (p.getD 0 0) (p.getD 1 0) s (q.getD 2 0) (p.getD 2 0) hs hlt
      refine ⟨p :: (gap ++ tail), ?_, ?_, ?_⟩
      · simp only [addMissingAux]
        rw [hgap]
        simp only [Option.some_bind, htail, Option.map_some']
      · intro x hx
        rcases List.mem_cons.mp hx with rfl | hx
        · simp
        · simp [List.mem_append, hmem x hx]
      · simp only [List.length_cons, List.length_append] at hlen ⊢
        omega

theorem addMissingAux_exact (s : ℚ) (hs : 0 < s) :
    ∀ ps : List Pos, List.Chain' (fun p q => q.getD 2 0 = p.getD 2 0 - s) ps →
      addMissingAux s ps = some ps := by
  intro ps
  induction ps with
  | nil => exact fun _ => rfl
  | cons p ps ih =>
    cases ps with
    | nil => exact fun _ => rfl
    | cons q rest =>
      intro hchain
      have heq : q.getD 2 0 = p.getD 2 0 - s := (List.chain'_cons.mp hchain).1
      have h1 := ih (List.chain'_cons.mp hchain).2
      have hgap :
          fillGapLoop (p.getD 0 0) (p.getD 1 0) s (q.getD 2 0) (p.getD 2 0 - s) = some [] := by
        rw [← heq]
        exact fillGapLoop_exact _ _ s _ hs
      simp only [addMissingAux]
      rw [hgap]
      simp only [Option.some_bind, h1, Option.map_some', List.nil_append]

/-- C1 (amended): for every non-empty, deduplicated, descending-sorted
position list with strictly decreasing z components and positive
through-plane spacing s, the position-set builder completes the list: it
returns a list (the source loop terminates), every input position appears in
the output, and the output is at least as long as the input; a list whose
consecutive z components differ by exactly s gets zero synthetic insertions;
and input z positions [10, 10, 6] with spacing 2 (duplicate removed by the
builder) yield the completed list with z = [10, 8, 6]. -/
theorem c1_position_set_builder :
    (∀ (ps : List Pos) (s : ℚ), 0 < s →
        List.Chain' (fun p q => q.getD 2 0 < p.getD 2 0) ps →
        ∃ l, addMissingPosPats (some s) ps = some l ∧
          (∀ p ∈ ps, p ∈ l) ∧ ps.length ≤ l.length) ∧
    (∀ (ps : List Pos) (s : ℚ), 0 < s →
        List.Chain' (fun p q => q.getD 2 0 = p.getD 2 0 - s) ps →
        addMissingPosPats (some s) ps = some ps) ∧
    positionSetBuilder (some 2) [[0, 0, 10], [0, 0, 10], [0, 0, 6]] =
      some [[0, 0, 10], [0, 0, 8], [0, 0, 6]] := by
  refine ⟨?_, ?_, ?_⟩
  · intro ps s hs hchain
    exact addMissingAux_terminates s hs ps hchain
  · intro ps s hs hchain
    exact addMissingAux_exact s hs ps hchain
  · with_unfolding_all decide

/-- C1 witness: the general parts of `c1_position_set_builder` instantiated
at the deduplicated sorted list with z = [10, 6] and spacing 2, and at an
exactly spaced list. -/
theorem c1_position_set_builder_witness :
    (∃ l, addMissingPosPats (some 2) [[0, 0, 10], [0, 0, 6]] = some l ∧
        (∀ p ∈ [[0, 0, 10], [0, 0, 6]], p ∈ l) ∧
        ([[0, 0, 10], [0, 0, 6]] : List Pos).length ≤ l.length) ∧
    addMissingPosPats (some 2) [[0, 0, 10], [0, 0, 8], [0, 0, 6]] =
      some [[0, 0, 10], [0, 0, 8], [0, 0, 6]] := by
  constructor
  · exact c1_position_set_builder.1 [[0, 0, 10], [0, 0, 6]] 2 (by norm_num)
      (by norm_num [List.chain'_cons, List.chain'_singleton, List.getD_cons_succ,
        List.getD_cons_zero])
  · exact c1_position_set_builder.2.1 [[0, 0, 10], [0, 0, 8], [0, 0, 6]] 2 (by norm_num)
      (by norm_num [List.chain'_cons, List.chain'_singleton, List.getD_cons_succ,
        List.getD_cons_zero])

/-- C1 counterexample: the input [[1, 0, 5], [0, 0, 5]] is non-empty,
deduplicated and a fixed point of the comparePosPat sort (descending ties on
z broken descending on the earlier axes), and the spacing 1 is positive, yet
the position-set builder produces no completed list at all: with two
distinct positions sharing the same z the source while loop never
terminates (modelled as none), so no output containing the input positions
exists. -/
theorem c1_counterexample :
    sortPosPat (dedupPosPats [[1, 0, 5], [0, 0, 5]]) = [[1, 0, 5], [0, 0, 5]] ∧
    positionSetBuilder (some 1) [[1, 0, 5], [0, 0, 5]] = none := by
  constructor
  · with_unfolding_all decide
  · with_unfolding_all decide

/-- C5: for every pair of coordinate triples, comparePosPat compares axes
from the last index toward the first and returns the first nonzero
b[i] - a[i] (and 0 when every component agrees); in particular sorting
[[0,0,0],[0,0,2],[0,0,1]] with this comparator yields
[[0,0,2],[0,0,1],[0,0,0]], descending by the last axis. -/
theorem c5_comparePosPat :
    (∀ a0 a1 a2 b0 b1 b2 : ℚ,
        comparePosPat [a0, a1, a2] [b0, b1, b2] =
          some (if b2 - a2 ≠ 0 then b2 - a2
            else if b1 - a1 ≠ 0 then b1 - a1
            else b0 - a0)) ∧
    sortPosPat [[0, 0, 0], [0, 0, 2], [0, 0, 1]] = [[0, 0, 2], [0, 0, 1], [0, 0, 0]] := by
  constructor
  · intro a0 a1 a2 b0 b1 b2
    have hr : (List.range 3).reverse = [2, 1, 0] := by decide
    by_cases h2 : b2 - a2 = 0 <;> by_cases h1 : b1 - a1 = 0 <;>
      simp [comparePosPat, comparePosPatGo, hr, h2, h1] <;>
      exact fun h => h.symm
  · with_unfolding_all decide

/-- C6: equalPosPat is true on two coordinate triples exactly when the values
at every index coincide, with no tolerance. -/
theorem c6_equalPosPat :
    ∀ a0 a1 a2 b0 b1 b2 : ℚ,
      (equalPosPat [a0, a1, a2] [b0, b1, b2] = true ↔ a0 = b0 ∧ a1 = b1 ∧ a2 = b2) := by
  intro a0 a1 a2 b0 b1 b2
  simp [equalPosPat]

/-- The failures of the decoder.  The source throws javascript Error objects
with message strings (and TypeError for a dereference of undefined); each
constructor stands for one throw site, carrying the data interpolated into
the message. -/
inductive Err
  | unsupportedCompressed (algoName : String)
  | missingSegmentationType
  | invalidSegmentationType (t : String)
  | unsupportedDimensionOrganizationType (t : String)
  | dimensionOrganizationSequenceLength
  | dimensionIndexSequenceLength
  | unknownDimensionOrganization
  | nonImagePositionLastIndex
  | missingColumns
  | missingRows
  | frameCountBufferMismatch (frames bufferFrames : ℚ)
  | missingSegmentSequence
  | missingPerFrameSequence
  | frameCountSequenceMismatch
  | multiOrientation
  | multiResolution
  | noSpacing
  | noOrientation
  | nonTermination
  | typeError
deriving DecidableEq

/-- A DICOM padding character: space or null. -/
def isPadChar (c : Char) : Bool :=
  c == ' ' || c == Char.ofNat 0

/-- Modelled from the spec: dwv.dicom.cleanString (an external string
utility, not under src) removes padding from a DICOM string value; modelled
as dropping leading and trailing padding characters. -/
def cleanString (s : String) : String :=
  ⟨((s.data.dropWhile isPadChar).reverse.dropWhile isPadChar).reverse⟩

/-- An sRGB color triple as produced by the external color utilities. -/
structure Rgb where
  r : ℚ
  g : ℚ
  b : ℚ
deriving DecidableEq

/-- A CIELab triple (arguments of the external color utilities). -/
structure Lab where
  l : ℚ
  a : ℚ
  b : ℚ
deriving DecidableEq

/-- Modelled from the spec: the external utilities consumed through narrow
interfaces and not under src — the transfer syntax to compression algorithm
lookup (dwv.dicom.getSyntaxDecompressionName, null for uncompressed
syntaxes) and the color conversions (dwv.utils.uintLabToLab and
dwv.utils.cielabToSrgb).  They are parameters of the embedding. -/
structure ExternalUtils where
  getSyntaxDecompressionName : String → Option String
  uintLabToLab : Lab → Lab
  cielabToSrgb : Lab → Rgb

/-- Modelled from the spec: dwv.utils.isEqualRgb (not under src) compares two
RGB triples componentwise. -/
def isEqualRgb (c1 c2 : Rgb) : Bool :=
  c1 == c2

/-- A display value held in a segment record: either a scalar (as assumed by
the frame-merge step for non-RGB segments) or an RGB triple. -/
inductive DisplayValue
  | gray (v : ℚ)
  | rgb (c : Rgb)
deriving DecidableEq

/-- Whether a display value is RGB shaped (its .r member is defined). -/
def DisplayValue.isRgb : DisplayValue → Bool
  | .gray _ => false
  | .rgb _ => true

/-- A segment record as built by getSegment; displayValue is absent when the
segment sequence item carries neither display value tag. -/
structure Segment where
  number : ℚ
  label : String
  algorithmType : String
  algorithmName : Option String := none
  displayValue : Option DisplayValue := none
deriving DecidableEq

/-- A Segment Sequence item (the dicom element passed to getSegment), with
the properties the function reads: segment number (0062,0004), label
(0062,0005), algorithm type (0062,0008), optional algorithm name
(0062,0009), optional recommended display grayscale value (0062,000C) and
optional recommended display CIELab value (0062,000D), each field holding
the element's value array (or its single value). -/
structure SegItem where
  x00620004 : ℚ
  x00620005 : String
  x00620008 : String
  x00620009 : Option String
  x0062000C : Option (List ℚ)
  x0062000D : Option (List ℚ)
deriving DecidableEq

/-- dwv.dicom.getSegment.  When the grayscale display value tag (0062,000C)
is present, the source reads `element.x006200C.value` — note the missing
digit in the property name — and no property x006200C ever exists on a
segment sequence item, so the member access on undefined throws a TypeError
(modelled as Err.typeError); otherwise the CIELab value, when present, is
converted to RGB through the external utilities. -/
def getSegment (ext : ExternalUtils) (element : SegItem) : Except Err Segment :=
  let segment : Segment :=
    { number := element.x00620004
      label := cleanString element.x00620005
      algorithmType := cleanString element.x00620008 }
  let segment :=
    match element.x00620009 with
    | none => segment
    | some n => { segment with algorithmName := some (cleanString n) }
  match element.x0062000C with
  | some _ => .error .typeError
  | none =>
    match element.x0062000D with
    | some cielabElement =>
      let rgb := ext.cielabToSrgb (ext.uintLabToLab
        { l := cielabElement.getD 0 0
          a := cielabElement.getD 1 0
          b := cielabElement.getD 2 0 })
      .ok { segment with displayValue := some (.rgb rgb) }
    | none => .ok segment

/-- dwv.dicom.isSimilarSegment on possibly undefined segment records.  When
seg1 carries an RGB display value and seg2 a scalar one, the source
overwrites the number comparison with false; when seg1 has no display value
(or seg1 is RGB shaped and seg2 has no display value) the property access
throws (none). -/
def isSimilarSegment (seg1 seg2 : Option Segment) : Option Bool :=
  match seg1, seg2 with
  | none, _ => some false
  | some _, none => some false
  | some s1, some s2 =>
    match s1.displayValue with
    | none => none
    | some (.rgb c1) =>
      match s2.displayValue with
      | none => none
      | some (.rgb c2) => some (s1.number == s2.number || isEqualRgb c1 c2)
      | some (.gray _) => some false
    | some (.gray v) =>
      some (s1.number == s2.number ||
        (match s2.displayValue with
         | some (.gray w) => v == w
         | _ => false))

/-- A concrete instantiation of the external utilities for witnesses: no
transfer syntax is compressed and the color conversions are simple concrete
functions. -/
def extDemo : ExternalUtils :=
  { getSyntaxDecompressionName := fun _ => none
    uintLabToLab := fun lab => lab
    cielabToSrgb := fun lab => { r := lab.l, g := lab.a, b := lab.b } }

/-- C3: whenever the recommended display grayscale value tag (0062,000C) is
present on a segment sequence item, getSegment does not return a segment
with that display value: the source reads the never-existing property
x006200C (missing digit) and throws a TypeError.  The CIELab conversion path
is taken when the grayscale tag is absent and the CIELab tag is present. -/
theorem c3_getSegment_grayscale :
    (∀ (ext : ExternalUtils) (element : SegItem) (g : List ℚ),
        element.x0062000C = some g →
        getSegment ext element = .error .typeError) ∧
    (∀ (ext : ExternalUtils) (element : SegItem) (lab : List ℚ),
        element.x0062000C = none → element.x0062000D = some lab →
        ∃ seg, getSegment ext element = .ok seg ∧
          seg.displayValue = some (.rgb (ext.cielabToSrgb (ext.uintLabToLab
            { l := lab.getD 0 0, a := lab.getD 1 0, b := lab.getD 2 0 })))) := by
  constructor
  · intro ext element g h
    simp [getSegment, h]
  · intro ext element lab h1 h2
    cases h9 : element.x00620009 with
    | none =>
      refine ⟨{ number := element.x00620004, label := cleanString element.x00620005,
                algorithmType := cleanString element.x00620008, algorithmName := none,
                displayValue := some (.rgb (ext.cielabToSrgb (ext.uintLabToLab
                  { l := lab.getD 0 0, a := lab.getD 1 0, b := lab.getD 2 0 }))) }, ?_, rfl⟩
      simp only [getSegment, h1, h2, h9]
    | some n =>
      refine ⟨{ number := element.x00620004, label := cleanString element.x00620005,
                algorithmType := cleanString element.x00620008,
                algorithmName := some (cleanString n),
                displayValue := some (.rgb (ext.cielabToSrgb (ext.uintLabToLab
                  { l := lab.getD 0 0, a := lab.getD 1 0, b := lab.getD 2 0 }))) }, ?_, rfl⟩
      simp only [getSegment, h1, h2, h9]

/-- C3 witness: a concrete segment item carrying grayscale display value [5]
makes getSegment throw, and a concrete CIELab segment item converts. -/
theorem c3_getSegment_grayscale_witness :
    getSegment extDemo
        { x00620004 := 1, x00620005 := "seg", x00620008 := "MANUAL",
          x00620009 := none, x0062000C := some [5], x0062000D := none } =
      .error .typeError ∧
    ∃ seg, getSegment extDemo
        { x00620004 := 1, x00620005 := "seg", x00620008 := "MANUAL",
          x00620009 := none, x0062000C := none, x0062000D := some [10, 20, 30] } =
      .ok seg ∧
      seg.displayValue = some (.rgb (extDemo.cielabToSrgb (extDemo.uintLabToLab
        { l := ([10, 20, 30] : List ℚ).getD 0 0, a := ([10, 20, 30] : List ℚ).getD 1 0,
          b := ([10, 20, 30] : List ℚ).getD 2 0 }))) := by
  constructor
  · exact c3_getSegment_grayscale.1 extDemo _ [5] rfl
  · exact c3_getSegment_grayscale.2 extDemo _ [10, 20, 30] rfl rfl

/-- The two segments of the C7 counterexample: equal numbers, the first with
an RGB display value, the second with a scalar one. -/
def c7Seg1 : Segment :=
  { number := 1, label := "s1", algorithmType := "MANUAL",
    displayValue := some (.rgb { r := 1, g := 2, b := 3 }) }

def c7Seg2 : Segment :=
  { number := 1, label := "s2", algorithmType := "MANUAL",
    displayValue := some (.gray 5) }

/-- C7 counterexample: two non-null segments with equal numbers for which
isSimilarSegment nevertheless returns false — seg1 is RGB shaped and seg2 is
not, and the source then overwrites the number comparison with false. -/
theorem c7_counterexample :
    c7Seg1.number = c7Seg2.number ∧
    isSimilarSegment (some c7Seg1) (some c7Seg2) = some false := by
  constructor
  · rfl
  · rfl

/-- C7 (amended): for non-null segments both carrying display values,
isSimilarSegment returns true iff the numbers are equal or the display
values are equal — except that when seg1's display value is RGB shaped and
seg2's is not, the result is false regardless of the numbers. -/
theorem c7_isSimilarSegment (s1 s2 : Segment) (dv1 dv2 : DisplayValue)
    (h1 : s1.displayValue = some dv1) (h2 : s2.displayValue = some dv2) :
    ∃ r, isSimilarSegment (some s1) (some s2) = some r ∧
      (r = true ↔ ((s1.number = s2.number ∨ dv1 = dv2) ∧ ¬(dv1.isRgb ∧ ¬dv2.isRgb))) := by
  rcases dv1 with v | c1
  · rcases dv2 with w | c2
    · refine ⟨s1.number == s2.number || (v == w), ?_, ?_⟩
      · simp only [isSimilarSegment, h1, h2]
      · simp [DisplayValue.isRgb]
    · refine ⟨s1.number == s2.number || false, ?_, ?_⟩
      · simp only [isSimilarSegment, h1, h2]
      · simp [DisplayValue.isRgb]
  · rcases dv2 with w | c2
    · refine ⟨false, ?_, ?_⟩
      · simp only [isSimilarSegment, h1, h2]
      · simp [DisplayValue.isRgb]
    · refine ⟨s1.number == s2.number || isEqualRgb c1 c2, ?_, ?_⟩
      · simp only [isSimilarSegment, h1, h2]
      · simp [DisplayValue.isRgb, isEqualRgb]

/-- C7 witness: `c7_isSimilarSegment` applied to two concrete scalar
segments with distinct numbers and equal display values. -/
theorem c7_isSimilarSegment_witness :
    ∃ r, isSimilarSegment
        (some { number := 1, label := "a", algorithmType := "MANUAL",
                displayValue := some (.gray 7) })
        (some { number := 2, label := "b", algorithmType := "MANUAL",
                displayValue := some (.gray 7) }) = some r ∧
      (r = true ↔ (((1 : ℚ) = 2 ∨ DisplayValue.gray 7 = DisplayValue.gray 7) ∧
        ¬((DisplayValue.gray 7).isRgb ∧ ¬(DisplayValue.gray 7).isRgb))) := by
  exact c7_isSimilarSegment _ _ _ _ rfl rfl

/-- A Source Image Sequence item (optional referenced SOP class/instance
UIDs). -/
structure SourceImageItem where
  x00081150 : Option String
  x00081155 : Option String
deriving DecidableEq

/-- A Derivation Image Sequence item with its optional Source Image
Sequence. -/
structure DerivItem where
  x00082112 : Option (List SourceImageItem)
deriving DecidableEq

/-- A Plane Orientation Sequence item: the Image Orientation (Patient) value
array, kept as raw element values (decimal strings as read from the file). -/
structure OrientItem where
  x00200037 : List DicomVal
deriving DecidableEq

/-- A Pixel Measures Sequence item: optional Pixel Spacing (two values) and
optional Spacing Between Slices. -/
structure MeasureItem where
  x00280030 : Option (DicomVal × DicomVal)
  x00180088 : Option DicomVal
deriving DecidableEq

/-- The first (required, only) Frame Content Sequence item: the Dimension
Index Value array. -/
structure FrameContentItem where
  x00209157 : List ℚ
deriving DecidableEq

/-- The first (required, only) Segment Identification Sequence item: the
Referenced Segment Number. -/
structure SegmentIdItem where
  x0062000B : ℚ
deriving DecidableEq

/-- The first (required, only) Plane Position Sequence item: the Image
Position (Patient) value array, raw element values. -/
structure PlanePosItem where
  x00200032 : List DicomVal
deriving DecidableEq

/-- A Per-frame Functional Groups Sequence item as read by
getSegmentFrameInfo.  The sub-sequences the source dereferences without a
presence check (frame content, segment identification, plane position, each
"required, only one") are modelled by their first item directly; the source
throws a TypeError when they are absent, which no claim covers. -/
structure FrameItem where
  x00089124 : Option (List DerivItem)
  x00209111 : FrameContentItem
  x0062000A : SegmentIdItem
  x00209113 : PlanePosItem
  x00209116 : Option (List OrientItem)
  x00289110 : Option (List MeasureItem)
deriving DecidableEq

/-- Modelled from the spec: dwv.image.Spacing (external geometric value
type, not under src) is an ordered list of floats; equality is
componentwise, and get(i) is the i-th value (undefined out of range). -/
abbrev Spacing := List ℚ

/-- dwv.dicom.getSpacingFromMeasure: null (none) without a Pixel Spacing;
otherwise the two parsed pixel spacing values, plus the parsed Spacing
Between Slices when present. -/
def getSpacingFromMeasure (measure : MeasureItem) : Option Spacing :=
  match measure.x00280030 with
  | none => none
  | some pixelSpacing =>
    let spacingValues := [parseFloatVal pixelSpacing.1, parseFloatVal pixelSpacing.2]
    match measure.x00180088 with
    | none => some spacingValues
    | some sliceThickness => some (spacingValues ++ [parseFloatVal sliceThickness])

/-- A source image reference record. -/
structure SourceImage where
  referencedSOPClassUID : Option String
  referencedSOPInstanceUID : Option String
deriving DecidableEq

/-- The frame information record built by getSegmentFrameInfo.  The spacing
field distinguishes the javascript undefined (outer none: no pixel measures
sequence, or an empty one) from the null returned by getSpacingFromMeasure
without a pixel spacing (some none). -/
structure FrameInfo where
  dimIndex : List ℚ
  imagePosPat : List ℚ
  derivationImages : List (List SourceImage)
  refSegmentNumber : ℚ
  imageOrientationPatient : Option (List DicomVal)
  spacing : Option (Option Spacing)
deriving DecidableEq

/-- dwv.dicom.getSegmentFrameInfo.  Besides the frame information record,
the model returns the group item as it is left after the call: the source
parses each Image Position (Patient) component in place
(`imagePosPat[p] = parseFloat(imagePosPat[p], 10)`, lines 311-313), writing
the parsed numbers back into the element's value array, so the item comes
back with that array mapped through parseFloat. -/
def getSegmentFrameInfo (groupItem : FrameItem) : FrameInfo × FrameItem :=
  let derivationImages : List (List SourceImage) :=
    match groupItem.x00089124 with
    | none => []
    | some derivationImageSq =>
      derivationImageSq.map (fun d =>
        match d.x00082112 with
        | none => []
        | some sourceImageSq =>
          sourceImageSq.map (fun s0 =>
            { referencedSOPClassUID := s0.x00081150
              referencedSOPInstanceUID := s0.x00081155 }))
  let dimIndex := groupItem.x00209111.x00209157
  let refSegmentNumber := groupItem.x0062000A.x0062000B
  let imagePosPat := groupItem.x00209113.x00200032.map parseFloatVal
  let orient : Option (List DicomVal) :=
    match groupItem.x00209116 with
    | none => none
    | some [] => none
    | some (o0 :: _) => some o0.x00200037
  let spacing : Option (Option Spacing) :=
    match groupItem.x00289110 with
    | none => none
    | some [] => none
    | some (m0 :: _) => some (getSpacingFromMeasure m0)
  ({ dimIndex := dimIndex
     imagePosPat := imagePosPat
     derivationImages := derivationImages
     refSegmentNumber := refSegmentNumber
     imageOrientationPatient := orient
     spacing := spacing },
   { groupItem with x00209113 := { x00200032 := imagePosPat.map DicomVal.num } })

theorem map_parse_num_of_num :
    ∀ l : List DicomVal, (∀ v ∈ l, ∃ q, v = DicomVal.num q) →
      l.map (fun v => DicomVal.num (parseFloatVal v)) = l := by
  intro l
  induction l with
  | nil => exact fun _ => rfl
  | cons v vs ih =>
    intro h
    obtain ⟨q, rfl⟩ := h v (by simp)
    simp only [List.map_cons, List.cons.injEq]
    exact ⟨rfl, ih (fun w hw => h w (by simp [hw]))⟩

/-- C2 (amended): the decode writes only its freshly allocated output buffer
and never the pixel buffer, but it does not leave the element tree
unchanged: getSegmentFrameInfo overwrites every Image Position (Patient)
component of its group item in place with the parsed number; a group item
whose position components are already numbers comes back unchanged. -/
theorem c2_getSegmentFrameInfo_mutation :
    ∀ item : FrameItem,
      (getSegmentFrameInfo item).2 =
        { item with x00209113 :=
            { x00200032 := item.x00209113.x00200032.map
                (fun v => DicomVal.num (parseFloatVal v)) } } ∧
      ((∀ v ∈ item.x00209113.x00200032, ∃ q, v = DicomVal.num q) →
        (getSegmentFrameInfo item).2 = item) := by
  intro item
  constructor
  · simp [getSegmentFrameInfo, List.map_map, Function.comp]
  · intro hnum
    have hmap := map_parse_num_of_num _ hnum
    show ({ item with x00209113 :=
      { x00200032 := (item.x00209113.x00200032.map parseFloatVal).map DicomVal.num } }) = item
    rw [List.map_map]
    show ({ item with x00209113 :=
      { x00200032 := item.x00209113.x00200032.map (fun v => DicomVal.num (parseFloatVal v)) } }) = item
    rw [hmap]

/-- C2 counterexample: a concrete per-frame group item whose plane position
holds decimal strings is mutated by getSegmentFrameInfo — the decode does
not leave its element tree input unchanged. -/
theorem c2_counterexample :
    (getSegmentFrameInfo
        { x00089124 := none
          x00209111 := { x00209157 := [1] }
          x0062000A := { x0062000B := 1 }
          x00209113 := { x00200032 := [DicomVal.str 1, DicomVal.str 2, DicomVal.str 3] }
          x00209116 := none
          x00289110 := none }).2 ≠
      { x00089124 := none
        x00209111 := { x00209157 := [1] }
        x0062000A := { x0062000B := 1 }
        x00209113 := { x00200032 := [DicomVal.str 1, DicomVal.str 2, DicomVal.str 3] }
        x00209116 := none
        x00289110 := none } := by
  with_unfolding_all decide

/-- C2 witness: `c2_getSegmentFrameInfo_mutation` at a concrete group item
whose position components are already numbers: it comes back unchanged. -/
theorem c2_getSegmentFrameInfo_mutation_witness :
    (getSegmentFrameInfo
        { x00089124 := none
          x00209111 := { x00209157 := [1] }
          x0062000A := { x0062000B := 1 }
          x00209113 := { x00200032 := [DicomVal.num 1, DicomVal.num 2, DicomVal.num 3] }
          x00209116 := none
          x00289110 := none }).2 =
      { x00089124 := none
        x00209111 := { x00209157 := [1] }
        x0062000A := { x0062000B := 1 }
        x00209113 := { x00200032 := [DicomVal.num 1, DicomVal.num 2, DicomVal.num 3] }
        x00209116 := none
        x00289110 := none } := by
  exact (c2_getSegmentFrameInfo_mutation _).2 (by
    intro v hv
    fin_cases hv <;> exact ⟨_, rfl⟩)

/-- A Dimension Organization Sequence item: the Dimension Organization UID
(0020,9164), value[0]. -/
structure OrgItem where
  x00209164 : String
deriving DecidableEq

/-- A Dimension Index Sequence item: organization UID (0020,9164), index
pointer (0020,9165) and optional description label (0020,9421), each the
element's value[0]. -/
structure IndexItem where
  x00209164 : String
  x00209165 : String
  x00209421 : Option String
deriving DecidableEq

/-- A dimension index record built by getDimensionOrganization. -/
structure DimensionIndex where
  organization : String
  pointer : String
  label : Option String
deriving DecidableEq

/-- The dimension organizations and indices record. -/
structure DimensionInfo where
  organizations : List String
  indices : List DimensionIndex
deriving DecidableEq

/-- A Shared Functional Groups Sequence item: optional Plane Orientation
Sequence and optional Pixel Measures Sequence. -/
structure FuncGroupItem where
  x00209116 : Option (List OrientItem)
  x00289110 : Option (List MeasureItem)
deriving DecidableEq

/-- The root dicom element tree, with one field per tag that the decoder
reads through getFromKey, plus the image size delivered by the external
getImageSize accessor.  A none field models an absent tag. -/
structure DicomElements where
  x00020010 : Option String
  x00620001 : Option String
  x00209311 : Option String
  x00209221 : Option (List OrgItem)
  x00209222 : Option (List IndexItem)
  x00620002 : Option (List SegItem)
  x00280010 : Option ℕ
  x00280011 : Option ℕ
  x00280008 : Option ℚ
  x52009229 : Option (List FuncGroupItem)
  x52009230 : Option (List FrameItem)
  x0020000E : Option String
  imageSize : List ℕ
deriving DecidableEq

/-- The transfer syntax check of checkDicomSeg (source lines 43-48): the
cleaned syntax must map to no compression algorithm.  The lookup on an
absent tag finds no algorithm. -/
def transferSyntaxCheck (ext : ExternalUtils) (rootElement : DicomElements) : Except Err Unit :=
  match rootElement.x00020010 with
  | none => .ok ()
  | some syntax0 =>
    match ext.getSyntaxDecompressionName (cleanString syntax0) with
    | some algoName => .error (.unsupportedCompressed algoName)
    | none => .ok ()

/-- The segmentation type read of checkDicomSeg (source lines 51-54): the
source truthiness test `!segmentationType` rejects both an absent tag and an
empty string value as missing. -/
def segmentationTypeRead (rootElement : DicomElements) : Except Err String :=
  match rootElement.x00620001 with
  | none => .error .missingSegmentationType
  | some t =>
    if t = "" then .error .missingSegmentationType
    else .ok t

/-- The dimension organization type check of checkDicomSeg (source lines
61-67): the source only enters the check when the value is truthy, so an
absent tag or an empty string value is skipped; a truthy value must clean to
"3D". -/
def dimOrgTypeCheck (rootElement : DicomElements) : Except Err Unit :=
  match rootElement.x00209311 with
  | none => .ok ()
  | some dimOrgType =>
    if dimOrgType ≠ "" ∧ cleanString dimOrgType ≠ "3D" then
      .error (.unsupportedDimensionOrganizationType (cleanString dimOrgType))
    else .ok ()

/-- dwv.dicom.checkDicomSeg: transfer syntax, segmentation type (cleaned,
must equal "BINARY") and dimension organization type, in source order. -/
def checkDicomSeg (ext : ExternalUtils) (rootElement : DicomElements) : Except Err Unit := do
  transferSyntaxCheck ext rootElement
  let segmentationType ← segmentationTypeRead rootElement
  if cleanString segmentationType ≠ "BINARY" then
    Except.error (Err.invalidSegmentationType (cleanString segmentationType))
  dimOrgTypeCheck rootElement

/-- dwv.dicom.getDimensionOrganization: one organization item required, an
optional index sequence of exactly two entries each referencing the known
organization, the second pointing at the patient position tag. -/
def getDimensionOrganization (rootElement : DicomElements) : Except Err DimensionInfo := do
  let org0 ←
    match rootElement.x00209221 with
    | some [o] => pure (cleanString o.x00209164)
    | _ => Except.error Err.dimensionOrganizationSequenceLength
  match rootElement.x00209222 with
  | none => pure { organizations := [org0], indices := [] }
  | some [i0, i1] =>
    if cleanString i0.x00209164 ≠ org0 then
      Except.error Err.unknownDimensionOrganization
    else if cleanString i1.x00209164 ≠ org0 then
      Except.error Err.unknownDimensionOrganization
    else
      let index0 : DimensionIndex :=
        { organization := cleanString i0.x00209164
          pointer := cleanString i0.x00209165
          label := i0.x00209421.map cleanString }
      let index1 : DimensionIndex :=
        { organization := cleanString i1.x00209164
          pointer := cleanString i1.x00209165
          label := i1.x00209421.map cleanString }
      if index1.pointer ≠ "(0020,0032)" then
        Except.error Err.nonImagePositionLastIndex
      else pure { organizations := [org0], indices := [index0, index1] }
  | some _ => Except.error Err.dimensionIndexSequenceLength

theorem ok_bind {α β : Type} (a : α) (f : α → Except Err β) :
    (Except.ok a >>= f) = f a := rfl

theorem error_bind {α β : Type} (e : Err) (f : α → Except Err β) :
    ((Except.error e : Except Err α) >>= f) = Except.error e := rfl

theorem transferSyntaxCheck_ok (ext : ExternalUtils) (els : DicomElements)
    (hsyn : ∀ s, els.x00020010 = some s →
      ext.getSyntaxDecompressionName (cleanString s) = none) :
    transferSyntaxCheck ext els = .ok () := by
  cases h : els.x00020010 with
  | none => simp [transferSyntaxCheck, h]
  | some s => simp [transferSyntaxCheck, h, hsyn s h]

/-- C9 (amended): the validator raises the compressed-syntax error naming
the algorithm for every compressed transfer syntax; it raises the
missing/invalid segmentation type errors for a missing, empty, or cleaned
non-"BINARY" segmentation type; it raises the dimension organization error
when the dimension organization type is present, non-empty, and does not
clean to "3D" (a present-but-empty value is skipped, since the source only
enters the check when the value is truthy); and when all three checks pass
it raises nothing. -/
theorem c9_checkDicomSeg :
    (∀ (ext : ExternalUtils) (els : DicomElements) (s algo : String),
        els.x00020010 = some s →
        ext.getSyntaxDecompressionName (cleanString s) = some algo →
        checkDicomSeg ext els = .error (.unsupportedCompressed algo)) ∧
    (∀ (ext : ExternalUtils) (els : DicomElements),
        (∀ s, els.x00020010 = some s →
          ext.getSyntaxDecompressionName (cleanString s) = none) →
        ((els.x00620001 = none ∨ els.x00620001 = some "") →
          checkDicomSeg ext els = .error .missingSegmentationType) ∧
        (∀ t, els.x00620001 = some t → t ≠ "" → cleanString t ≠ "BINARY" →
          checkDicomSeg ext els = .error (.invalidSegmentationType (cleanString t))) ∧
        (∀ t, els.x00620001 = some t → t ≠ "" → cleanString t = "BINARY" →
          (∀ d, els.x00209311 = some d → d ≠ "" → cleanString d ≠ "3D" →
            checkDicomSeg ext els =
              .error (.unsupportedDimensionOrganizationType (cleanString d))) ∧
          ((els.x00209311 = none ∨ els.x00209311 = some "" ∨
              (∃ d, els.x00209311 = some d ∧ cleanString d = "3D")) →
            checkDicomSeg ext els = .ok ()))) := by
  constructor
  · intro ext els s algo h1 h2
    simp [checkDicomSeg, transferSyntaxCheck, h1, h2, error_bind]
  · intro ext els hsyn
    have htr := transferSyntaxCheck_ok ext els hsyn
    refine ⟨?_, ?_, ?_⟩
    · intro hmiss
      rcases hmiss with h | h <;>
        simp [checkDicomSeg, htr, ok_bind, segmentationTypeRead, h, error_bind]
    · intro t ht hne hbin
      simp [checkDicomSeg, htr, ok_bind, segmentationTypeRead, ht, hne, hbin, error_bind]
    · intro t ht hne hbin
      constructor
      · intro d hd hdne hd3
        simp [checkDicomSeg, htr, ok_bind, segmentationTypeRead, ht, hne, hbin,
          dimOrgTypeCheck, hd, hdne, hd3, error_bind]
      · intro hpass
        rcases hpass with h | h | ⟨d, hd, hd3⟩
        · simp [checkDicomSeg, htr, ok_bind, segmentationTypeRead, ht, hne, hbin,
            dimOrgTypeCheck, h, error_bind]
        · simp [checkDicomSeg, htr, ok_bind, segmentationTypeRead, ht, hne, hbin,
            dimOrgTypeCheck, h, error_bind]
        · simp [checkDicomSeg, htr, ok_bind, segmentationTypeRead, ht, hne, hbin,
            dimOrgTypeCheck, hd, hd3, error_bind]

/-- C9 counterexample: a root element whose dimension organization type tag
is present with an empty value — the claim requires an error for every
present non-"3D" value, but the validator succeeds, because the source skips
the check for a falsy value. -/
theorem c9_counterexample :
    (({ x00020010 := none, x00620001 := some "BINARY", x00209311 := some "",
        x00209221 := none, x00209222 := none, x00620002 := none,
        x00280010 := none, x00280011 := none, x00280008 := none,
        x52009229 := none, x52009230 := none, x0020000E := none,
        imageSize := [] } : DicomElements).x00209311 = some "" ∧ ("" : String) ≠ "3D") ∧
    checkDicomSeg extDemo
      { x00020010 := none, x00620001 := some "BINARY", x00209311 := some "",
        x00209221 := none, x00209222 := none, x00620002 := none,
        x00280010 := none, x00280011 := none, x00280008 := none,
        x52009229 := none, x52009230 := none, x0020000E := none,
        imageSize := [] } = .ok () := by
  refine ⟨⟨rfl, by decide⟩, ?_⟩
  rfl

/-- C9 witness: `c9_checkDicomSeg` applied at concrete inputs — a compressed
syntax raising the algorithm-naming error, and a fully valid element tree
raising nothing. -/
theorem c9_checkDicomSeg_witness :
    checkDicomSeg
        { getSyntaxDecompressionName := fun s => if s = "1.2.840.10008.1.2.4.90" then some "jpeg2000" else none
          uintLabToLab := fun lab => lab
          cielabToSrgb := fun lab => { r := lab.l, g := lab.a, b := lab.b } }
        { x00020010 := some "1.2.840.10008.1.2.4.90", x00620001 := some "BINARY",
          x00209311 := none, x00209221 := none, x00209222 := none, x00620002 := none,
          x00280010 := none, x00280011 := none, x00280008 := none,
          x52009229 := none, x52009230 := none, x0020000E := none, imageSize := [] } =
      .error (.unsupportedCompressed "jpeg2000") ∧
    checkDicomSeg extDemo
        { x00020010 := none, x00620001 := some "BINARY", x00209311 := some "3D",
          x00209221 := none, x00209222 := none, x00620002 := none,
          x00280010 := none, x00280011 := none, x00280008 := none,
          x52009229 := none, x52009230 := none, x0020000E := none, imageSize := [] } =
      .ok () := by
  constructor
  · exact c9_checkDicomSeg.1 _ _ "1.2.840.10008.1.2.4.90" "jpeg2000" rfl (by decide)
  · exact ((c9_checkDicomSeg.2 extDemo _ (fun s hs => by cases hs)).2.2 "BINARY" rfl
      (by decide) (by decide)).2 (Or.inr (Or.inr ⟨"3D", rfl, by decide⟩))

/-- A single typed-array store, on buffers modelled as functions from index
to value. -/
def bufWrite (buffer : ℕ → ℚ) (i : ℕ) (v : ℚ) : ℕ → ℚ :=
  fun j => if j = i then v else buffer j

/-- The inner pixel loop of the frame merging (MaskFactory.create lines
578-589), over the list of pixel indices l: when the source pixel at
frameOffset + l is nonzero, write the display value at
offset = mul * (sliceOffset + l).  Javascript coercions at the write site:
with storeAsRGB, an undefined display value throws on .r (typeError) and a
scalar's .r/.g/.b are undefined, stored as 0 by an integer typed array;
without storeAsRGB, an RGB object or undefined coerces to NaN/undefined,
stored as 0 by an integer typed array (a float typed array would store NaN
instead; no claim touches these corners).  A frame whose position was not
found has sliceIndex -1 (none) and all its offsets are negative, so the
typed array drops the writes. -/
def writeFramePixels (storeAsRGB : Bool) (mul : ℕ) (pixelValue : Option DisplayValue)
    (pixelBuffer : List ℚ) (frameOffset : ℕ) (sliceIndex : Option ℕ) (sliceSize : ℕ) :
    List ℕ → (ℕ → ℚ) → Except Err (ℕ → ℚ)
  | [], buffer => .ok buffer
  | l :: ls, buffer =>
    if pixelBuffer.getD (frameOffset + l) 0 ≠ 0 then
      match pixelValue, storeAsRGB with
      | none, true => .error .typeError
      | pv, _ =>
        match sliceIndex with
        | none =>
          writeFramePixels storeAsRGB mul pixelValue pixelBuffer frameOffset sliceIndex
            sliceSize ls buffer
        | some si =>
          let offset := mul * (si * sliceSize + l)
          let written :=
            match pv, storeAsRGB with
            | some (.rgb c), true =>
              bufWrite (bufWrite (bufWrite buffer offset c.r) (offset + 1) c.g) (offset + 2) c.b
            | some (.gray _), true =>
              bufWrite (bufWrite (bufWrite buffer offset 0) (offset + 1) 0) (offset + 2) 0
            | some (.gray v), false => bufWrite buffer offset v
            | some (.rgb _), false => bufWrite buffer offset 0
            | none, _ => bufWrite buffer offset 0
          writeFramePixels storeAsRGB mul pixelValue pixelBuffer frameOffset sliceIndex
            sliceSize ls written
    else
      writeFramePixels storeAsRGB mul pixelValue pixelBuffer frameOffset sliceIndex
        sliceSize ls buffer

/-- The getFindSegmentFunc closure of MaskFactory.create. -/
def getFindSegmentFunc (number : ℚ) : Segment → Bool :=
  fun item => item.number == number

/-- The frame-merging loop of MaskFactory.create (lines 564-590), frame
index f carried explicitly: find the slice by exact position match, find the
frame's segment (an unmatched referenced segment number leaves frameSegment
undefined and reading .displayValue throws), then write the nonzero pixels.
-/
def mergeFramesAux (segments : List Segment) (posPats : List Pos) (pixelBuffer : List ℚ)
    (sliceSize : ℕ) (storeAsRGB : Bool) (mul : ℕ) :
    ℕ → List FrameInfo → (ℕ → ℚ) → Except Err (ℕ → ℚ)
  | _, [], buffer => .ok buffer
  | f, fi :: rest, buffer =>
    match segments.find? (getFindSegmentFunc fi.refSegmentNumber) with
    | none => .error .typeError
    | some frameSegment =>
      match writeFramePixels storeAsRGB mul frameSegment.displayValue pixelBuffer
          (sliceSize * f) (findIndexPosPat posPats fi.imagePosPat) sliceSize
          (List.range sliceSize) buffer with
      | .error e => .error e
      | .ok buffer =>
        mergeFramesAux segments posPats pixelBuffer sliceSize storeAsRGB mul (f + 1) rest buffer

/-- The frame merging of MaskFactory.create: the output buffer starts
zero-filled (line 563) and the frames are merged in input order. -/
def mergeFrames (segments : List Segment) (frameInfos : List FrameInfo) (posPats : List Pos)
    (pixelBuffer : List ℚ) (sliceSize : ℕ) (storeAsRGB : Bool) : Except Err (ℕ → ℚ) :=
  mergeFramesAux segments posPats pixelBuffer sliceSize storeAsRGB
    (if storeAsRGB then 3 else 1) 0 frameInfos (fun _ => 0)

theorem writeFramePixels_scalar (v : ℚ) (pixelBuffer : List ℚ) (frameOffset si sliceSize : ℕ) :
    ∀ (ls : List ℕ) (buffer : ℕ → ℚ),
      ∃ out,
        writeFramePixels false 1 (some (.gray v)) pixelBuffer frameOffset (some si) sliceSize
          ls buffer = .ok out ∧
        ∀ j, out j =
          if ∃ l ∈ ls, pixelBuffer.getD (frameOffset + l) 0 ≠ 0 ∧ j = si * sliceSize + l then v
          else buffer j := by
  intro ls
  induction ls with
  | nil =>
    intro buffer
    exact ⟨buffer, rfl, fun j => by simp⟩
  | cons l ls ih =>
    intro buffer
    by_cases hc : pixelBuffer.getD (frameOffset + l) 0 ≠ 0
    · obtain ⟨out, hout, hval⟩ := ih (bufWrite buffer (1 * (si * sliceSize + l)) v)
      refine ⟨out, ?_, ?_⟩
      · simp only [writeFramePixels, if_pos hc]
        exact hout
      · intro j
        rw [hval j]
        by_cases hj : j = si * sliceSize + l
        · have hcond : ∃ l2 ∈ l :: ls,
              pixelBuffer.getD (frameOffset + l2) 0 ≠ 0 ∧ j = si * sliceSize + l2 :=
            ⟨l, List.mem_cons_self l ls, hc, hj⟩
          rw [if_pos hcond]
          split
          · rfl
          · simp [bufWrite, hj]
        · have hiff : (∃ l2 ∈ l :: ls,
              pixelBuffer.getD (frameOffset + l2) 0 ≠ 0 ∧ j = si * sliceSize + l2) ↔
              (∃ l2 ∈ ls,
                pixelBuffer.getD (frameOffset + l2) 0 ≠ 0 ∧ j = si * sliceSize + l2) := by
            constructor
            · rintro ⟨l2, hmem, hc2, hj2⟩
              rcases List.mem_cons.mp hmem with rfl | hmem2
              · exact absurd hj2 hj
              · exact ⟨l2, hmem2, hc2, hj2⟩
            · rintro ⟨l2, hmem, hrest⟩
              exact ⟨l2, List.mem_cons_of_mem _ hmem, hrest⟩
          simp only [hiff]
          split
          · rfl
          · simp [bufWrite, hj]
    · obtain ⟨out, hout, hval⟩ := ih buffer
      refine ⟨out, ?_, ?_⟩
      · simp only [writeFramePixels, if_neg hc]
        exact hout
      · intro j
        rw [hval j]
        have hiff : (∃ l2 ∈ l :: ls,
            pixelBuffer.getD (frameOffset + l2) 0 ≠ 0 ∧ j = si * sliceSize + l2) ↔
            (∃ l2 ∈ ls,
              pixelBuffer.getD (frameOffset + l2) 0 ≠ 0 ∧ j = si * sliceSize + l2) := by
          push_neg at hc
          constructor
          · rintro ⟨l2, hmem, hc2, hj2⟩
            rcases List.mem_cons.mp hmem with rfl | hmem2
            · exact absurd hc hc2
            · exact ⟨l2, hmem2, hc2, hj2⟩
          · rintro ⟨l2, hmem, hrest⟩
            exact ⟨l2, List.mem_cons_of_mem _ hmem, hrest⟩
        simp only [hiff]

theorem mergeFrames_single (seg : Segment) (v : ℚ) (fi : FrameInfo) (posPats : List Pos)
    (si : ℕ) (pixelBuffer : List ℚ) (sliceSize : ℕ)
    (hdv : seg.displayValue = some (.gray v))
    (hnum : fi.refSegmentNumber = seg.number)
    (hfind : findIndexPosPat posPats fi.imagePosPat = some si) :
    ∃ out, mergeFrames [seg] [fi] posPats pixelBuffer sliceSize false = .ok out ∧
      ∀ l, l < sliceSize → out (si * sliceSize + l) =
        (if pixelBuffer.getD l 0 ≠ 0 then v else 0) := by
  obtain ⟨out, hout, hval⟩ := writeFramePixels_scalar v pixelBuffer (sliceSize * 0) si sliceSize
    (List.range sliceSize) (fun _ => 0)
  have hfindseg : [seg].find? (getFindSegmentFunc fi.refSegmentNumber) = some seg :=
    List.find?_cons_of_pos _ (by simp [getFindSegmentFunc, hnum])
  refine ⟨out, ?_, ?_⟩
  · show mergeFramesAux [seg] posPats pixelBuffer sliceSize false 1 0 [fi] (fun _ => 0) =
      Except.ok out
    simp only [mergeFramesAux, hfindseg, hfind, hdv]
    rw [hout]
  · intro l hl
    rw [hval (si * sliceSize + l)]
    by_cases hc : pixelBuffer.getD l 0 ≠ 0
    · rw [if_pos ⟨l, List.mem_range.mpr hl, by simpa using hc, rfl⟩, if_pos hc]
    · rw [if_neg ?_, if_neg hc]
      rintro ⟨l2, hmem, hc2, hj2⟩
      have hle : l2 = l := by omega
      subst hle
      exact hc (by simpa using hc2)

theorem mergeFrames_overlap (seg1 seg2 : Segment) (v1 v2 : ℚ) (fi1 fi2 : FrameInfo)
    (posPats : List Pos) (si : ℕ) (pixelBuffer : List ℚ) (sliceSize : ℕ)
    (hdv1 : seg1.displayValue = some (.gray v1))
    (hdv2 : seg2.displayValue = some (.gray v2))
    (hn1 : fi1.refSegmentNumber = seg1.number)
    (hn2 : fi2.refSegmentNumber = seg2.number)
    (hne : seg1.number ≠ seg2.number)
    (hf1 : findIndexPosPat posPats fi1.imagePosPat = some si)
    (hf2 : findIndexPosPat posPats fi2.imagePosPat = some si) :
    ∃ out, mergeFrames [seg1, seg2] [fi1, fi2] posPats pixelBuffer sliceSize false = .ok out ∧
      ∀ l, l < sliceSize → out (si * sliceSize + l) =
        (if pixelBuffer.getD (sliceSize + l) 0 ≠ 0 then v2
         else if pixelBuffer.getD l 0 ≠ 0 then v1 else 0) := by
  obtain ⟨out1, hout1, hval1⟩ := writeFramePixels_scalar v1 pixelBuffer (sliceSize * 0) si
    sliceSize (List.range sliceSize) (fun _ => 0)
  obtain ⟨out2, hout2, hval2⟩ := writeFramePixels_scalar v2 pixelBuffer (sliceSize * (0 + 1)) si
    sliceSize (List.range sliceSize) out1
  have hfind1 : [seg1, seg2].find? (getFindSegmentFunc fi1.refSegmentNumber) = some seg1 :=
    List.find?_cons_of_pos _ (by simp [getFindSegmentFunc, hn1])
  have hfind2 : [seg1, seg2].find? (getFindSegmentFunc fi2.refSegmentNumber) = some seg2 := by
    rw [List.find?_cons_of_neg _ (by simp [getFindSegmentFunc, hn2, hne])]
    exact List.find?_cons_of_pos _ (by simp [getFindSegmentFunc, hn2])
  refine ⟨out2, ?_, ?_⟩
  · show mergeFramesAux [seg1, seg2] posPats pixelBuffer sliceSize false 1 0 [fi1, fi2]
      (fun _ => 0) = Except.ok out2
    simp only [mergeFramesAux, hfind1, hfind2, hdv1, hdv2, hf1, hf2]
    rw [hout1]
    simp only [mergeFramesAux, hfind2, hdv2, hf2]
    rw [hout2]
  · intro l hl
    rw [hval2 (si * sliceSize + l)]
    by_cases hc2 : pixelBuffer.getD (sliceSize + l) 0 ≠ 0
    · rw [if_pos ⟨l, List.mem_range.mpr hl, by simpa using hc2, rfl⟩, if_pos hc2]
    · rw [if_neg ?_, if_neg hc2]
      · rw [hval1 (si * sliceSize + l)]
        by_cases hc1 : pixelBuffer.getD l 0 ≠ 0
        · rw [if_pos ⟨l, List.mem_range.mpr hl, by simpa using hc1, rfl⟩, if_pos hc1]
        · rw [if_neg ?_, if_neg hc1]
          rintro ⟨l2, hmem, hcc, hj2⟩
          have hle : l2 = l := by omega
          subst hle
          exact hc1 (by simpa using hcc)
      · rintro ⟨l2, hmem, hcc, hj2⟩
        have hle : l2 = l := by omega
        subst hle
        exact hc2 (by simpa using hcc)

/-- C4: during frame merging, for each frame in input order and each pixel l
whose source value is nonzero, the frame's segment's display value is
written at output offset channels × (sliceIndex × sliceSize + l), the slice
index found by exact position match; when two frames mark the same voxel
nonzero the later-processed frame's value is retained; concretely, one
segment with scalar display value 5, rows = 2, columns = 2 and one frame
with pixel pattern [1,0,0,1] produce the single output slice [5,0,0,5] (and
an RGB segment interleaves its triple at channels × offset). -/
theorem c4_merge_frames :
    (∀ (seg : Segment) (v : ℚ) (fi : FrameInfo) (posPats : List Pos) (si : ℕ)
        (pixelBuffer : List ℚ) (sliceSize : ℕ),
        seg.displayValue = some (.gray v) →
        fi.refSegmentNumber = seg.number →
        findIndexPosPat posPats fi.imagePosPat = some si →
        ∃ out, mergeFrames [seg] [fi] posPats pixelBuffer sliceSize false = .ok out ∧
          ∀ l, l < sliceSize → out (si * sliceSize + l) =
            (if pixelBuffer.getD l 0 ≠ 0 then v else 0)) ∧
    (∀ (seg1 seg2 : Segment) (v1 v2 : ℚ) (fi1 fi2 : FrameInfo) (posPats : List Pos) (si : ℕ)
        (pixelBuffer : List ℚ) (sliceSize : ℕ),
        seg1.displayValue = some (.gray v1) →
        seg2.displayValue = some (.gray v2) →
        fi1.refSegmentNumber = seg1.number →
        fi2.refSegmentNumber = seg2.number →
        seg1.number ≠ seg2.number →
        findIndexPosPat posPats fi1.imagePosPat = some si →
        findIndexPosPat posPats fi2.imagePosPat = some si →
        ∃ out, mergeFrames [seg1, seg2] [fi1, fi2] posPats pixelBuffer sliceSize false =
            .ok out ∧
          ∀ l, l < sliceSize → out (si * sliceSize + l) =
            (if pixelBuffer.getD (sliceSize + l) 0 ≠ 0 then v2
             else if pixelBuffer.getD l 0 ≠ 0 then v1 else 0)) ∧
    (mergeFrames
        [{ number := 1, label := "s", algorithmType := "MANUAL",
           displayValue := some (.gray 5) }]
        [{ dimIndex := [1], imagePosPat := [0, 0, 0], derivationImages := [],
           refSegmentNumber := 1, imageOrientationPatient := none, spacing := none }]
        [[0, 0, 0]] [1, 0, 0, 1] 4 false).map (fun out => (List.range 4).map out) =
      .ok [5, 0, 0, 5] ∧
    (mergeFrames
        [{ number := 1, label := "s", algorithmType := "MANUAL",
           displayValue := some (.rgb { r := 10, g := 20, b := 30 }) }]
        [{ dimIndex := [1], imagePosPat := [0, 0, 0], derivationImages := [],
           refSegmentNumber := 1, imageOrientationPatient := none, spacing := none }]
        [[0, 0, 0]] [1, 0, 0, 0] 4 true).map (fun out => (List.range 12).map out) =
      .ok [10, 20, 30, 0, 0, 0, 0, 0, 0, 0, 0, 0] := by
  refine ⟨?_, ?_, ?_, ?_⟩
  · intro seg v fi posPats si pixelBuffer sliceSize hdv hnum hfind
    exact mergeFrames_single seg v fi posPats si pixelBuffer sliceSize hdv hnum hfind
  · intro seg1 seg2 v1 v2 fi1 fi2 posPats si pixelBuffer sliceSize hdv1 hdv2 hn1 hn2 hne hf1 hf2
    exact mergeFrames_overlap seg1 seg2 v1 v2 fi1 fi2 posPats si pixelBuffer sliceSize
      hdv1 hdv2 hn1 hn2 hne hf1 hf2
  · with_unfolding_all rfl
  · with_unfolding_all rfl

/-- C4 witness: the general write formula and the overlap policy of
`c4_merge_frames` instantiated at concrete frames on a 2-by-2 slice. -/
theorem c4_merge_frames_witness :
    (∃ out, mergeFrames
        [{ number := 1, label := "s", algorithmType := "MANUAL",
           displayValue := some (.gray 5) }]
        [{ dimIndex := [1], imagePosPat := [0, 0, 0], derivationImages := [],
           refSegmentNumber := 1, imageOrientationPatient := none, spacing := none }]
        [[0, 0, 0]] [1, 0, 0, 1] 4 false = .ok out ∧
      ∀ l, l < 4 → out (0 * 4 + l) =
        (if ([1, 0, 0, 1] : List ℚ).getD l 0 ≠ 0 then (5 : ℚ) else 0)) ∧
    (∃ out, mergeFrames
        [{ number := 1, label := "a", algorithmType := "MANUAL",
           displayValue := some (.gray 5) },
         { number := 2, label := "b", algorithmType := "MANUAL",
           displayValue := some (.gray 7) }]
        [{ dimIndex := [1], imagePosPat := [0, 0, 0], derivationImages := [],
           refSegmentNumber := 1, imageOrientationPatient := none, spacing := none },
         { dimIndex := [2], imagePosPat := [0, 0, 0], derivationImages := [],
           refSegmentNumber := 2, imageOrientationPatient := none, spacing := none }]
        [[0, 0, 0]] [1, 0, 0, 1, 1, 1, 0, 0] 4 false = .ok out ∧
      ∀ l, l < 4 → out (0 * 4 + l) =
        (if ([1, 0, 0, 1, 1, 1, 0, 0] : List ℚ).getD (4 + l) 0 ≠ 0 then (7 : ℚ)
         else if ([1, 0, 0, 1, 1, 1, 0, 0] : List ℚ).getD l 0 ≠ 0 then 5 else 0)) := by
  constructor
  · exact c4_merge_frames.1 _ 5 _ [[0, 0, 0]] 0 [1, 0, 0, 1] 4 rfl rfl
      (by with_unfolding_all decide)
  · exact c4_merge_frames.2.1 _ _ 5 7 _ _ [[0, 0, 0]] 0 [1, 0, 0, 1, 1, 1, 0, 0] 4 rfl rfl
      rfl rfl (by with_unfolding_all decide) (by with_unfolding_all decide)
      (by with_unfolding_all decide)

/-- The arrayEquals closure of MaskFactory.create (lines 469-479) on element
value arrays; its null operands never occur at the call site. -/
def arrayEquals (arr0 arr1 : List DicomVal) : Bool :=
  arr0.length == arr1.length && (arr0.zip arr1).all (fun p => p.1 == p.2)

/-- The frame count read of MaskFactory.create (lines 383-388): default 1
when the number-of-frames tag is absent; parseInt of the well-formed IS
string is modelled as the stored number. -/
def getFrames (dicomElements : DicomElements) : ℚ :=
  match dicomElements.x00280008 with
  | none => 1
  | some frames => frames

/-- The segment sequence loop of MaskFactory.create (lines 404-416): read
each segment and set storeAsRGB when any display value is RGB shaped.  The
shape test `typeof segment.displayValue.r` dereferences undefined when a
segment resolved no display value, a TypeError. -/
def readSegments (ext : ExternalUtils) : List SegItem → Except Err (List Segment × Bool)
  | [] => .ok ([], false)
  | item :: rest =>
    match getSegment ext item with
    | .error e => .error e
    | .ok segment =>
      match segment.displayValue with
      | none => .error .typeError
      | some dv =>
        match readSegments ext rest with
        | .error e => .error e
        | .ok (segments, storeAsRGB) => .ok (segment :: segments, dv.isRgb || storeAsRGB)

/-- The orientation and spacing defaults read from the shared functional
groups sequence (MaskFactory.create lines 421-455): the shared orientation
is parsed to numbers; the shared spacing keeps the undefined/null
distinction of getSpacingFromMeasure. -/
structure SharedInfo where
  imageOrientationPatient : Option (List DicomVal)
  spacing : Option (Option Spacing)
deriving DecidableEq

def readSharedGroups (dicomElements : DicomElements) : SharedInfo :=
  match dicomElements.x52009229 with
  | none => { imageOrientationPatient := none, spacing := none }
  | some [] => { imageOrientationPatient := none, spacing := none }
  | some (funcGroup0 :: _) =>
    { imageOrientationPatient :=
        match funcGroup0.x00209116 with
        | none => none
        | some [] => none
        | some (p0 :: _) => some (p0.x00200037.map (fun x => DicomVal.num (parseFloatVal x)))
      spacing :=
        match funcGroup0.x00289110 with
        | none => none
        | some [] => none
        | some (m0 :: _) => some (getSpacingFromMeasure m0) }

/-- The accumulator of the frame-info check loop. -/
structure AccState where
  framePosPats : List Pos
  imageOrientationPatient : Option (List DicomVal)
  spacing : Option (Option Spacing)
deriving DecidableEq

/-- The frame-info check loop of MaskFactory.create (lines 499-525):
accumulate unique positions, adopt the first orientation and spacing seen
and reject disagreeing ones.  A null spacing accumulator makes the source
call null.equals (a TypeError); a null frame spacing compared against an
adopted one is unequal (the external Spacing.equals is false on a non-object
argument, modelled from the spec), a multi-resolution error. -/
def accumulateFrameChecks : List FrameInfo → AccState → Except Err AccState
  | [], acc => .ok acc
  | fi :: rest, acc =>
    let framePosPats :=
      if includesPosPat acc.framePosPats fi.imagePosPat then acc.framePosPats
      else acc.framePosPats ++ [fi.imagePosPat]
    let orientStep : Except Err (Option (List DicomVal)) :=
      match fi.imageOrientationPatient with
      | none => .ok acc.imageOrientationPatient
      | some o =>
        match acc.imageOrientationPatient with
        | none => .ok (some o)
        | some cur =>
          if arrayEquals cur o then .ok (some cur)
          else .error .multiOrientation
    match orientStep with
    | .error e => .error e
    | .ok orient =>
      let spacingStep : Except Err (Option (Option Spacing)) :=
        match fi.spacing with
        | none => .ok acc.spacing
        | some fs =>
          match acc.spacing with
          | none => .ok (some fs)
          | some none => .error .typeError
          | some (some cur) =>
            match fs with
            | none => .error .multiResolution
            | some fsp =>
              if cur == fsp then .ok (some (some cur))
              else .error .multiResolution
      match spacingStep with
      | .error e => .error e
      | .ok spacing =>
        accumulateFrameChecks rest
          { framePosPats := framePosPats, imageOrientationPatient := orient, spacing := spacing }

/-- The geometry of the output image: origin from the first completed
position, one per-slice origin per completed position. -/
structure GeometryT where
  origin : Pos
  size : List ℕ
  spacing : Spacing
  origins : List Pos
deriving DecidableEq

/-- The image metadata set by MaskFactory.create (lines 614-629). -/
structure MetaT where
  Modality : String
  SegmentationType : String
  DimensionOrganizationType : String
  DimensionOrganizations : List String
  DimensionIndices : List DimensionIndex
  BitsStored : ℕ
  SeriesInstanceUID : Option String
  ImageOrientationPatient : List DicomVal
  segments : List Segment
  frameInfos : List FrameInfo
deriving DecidableEq

/-- The output image: geometry, flat buffer, slice uids, photometric
interpretation (set to RGB only when storeAsRGB) and metadata. -/
structure MaskImage where
  geometry : GeometryT
  buffer : List ℚ
  uids : List ℕ
  photometricInterpretation : Option String
  meta : MetaT
deriving DecidableEq

/-- Everything MaskFactory.create computes before building the output image
(lines 365-607). -/
structure MaskParts where
  dimension : DimensionInfo
  seriesUID : Option String
  size : List ℕ
  spacing : Spacing
  storeAsRGB : Bool
  imageOrientationPatient : List DicomVal
  segments : List Segment
  frameInfos : List FrameInfo
  posPats : List Pos
  buffer : List ℚ
  numberOfSlices : ℕ
deriving DecidableEq

/-- The tail of MaskFactory.create (lines 596-631): build the geometry from
the completed position list, the uids 0..numberOfSlices-1, the photometric
interpretation, and the metadata with its fixed constants Modality = SEG,
SegmentationType = BINARY, DimensionOrganizationType = 3D and
BitsStored = 8. -/
def assembleImage (parts : MaskParts) : MaskImage :=
  { geometry :=
      { origin := parts.posPats.headD []
        size := parts.size
        spacing := parts.spacing
        origins := parts.posPats }
    buffer := parts.buffer
    uids := List.range parts.numberOfSlices
    photometricInterpretation := if parts.storeAsRGB then some "RGB" else none
    meta :=
      { Modality := "SEG"
        SegmentationType := "BINARY"
        DimensionOrganizationType := "3D"
        DimensionOrganizations := parts.dimension.organizations
        DimensionIndices := parts.dimension.indices
        BitsStored := 8
        SeriesInstanceUID := parts.seriesUID
        ImageOrientationPatient := parts.imageOrientationPatient
        segments := parts.segments
        frameInfos := parts.frameInfos } }

/-- The body of dwv.image.MaskFactory.prototype.create up to the image
construction, in source order: validate, read columns/rows, frame count and
its buffer check, dimension organization, segments, image size, shared
groups, per-frame groups and their count check, frame infos, the frame
check loop, the position sort, the spacing and orientation checks, the
spacing.get(2) read (a TypeError on a null spacing), the missing-position
filling (Err.nonTermination when the source loop never finishes), and the
frame merge into the zero-filled output buffer of
mul * sliceSize * numberOfSlices elements. -/
def createParts (ext : ExternalUtils) (dicomElements : DicomElements) (pixelBuffer : List ℚ) :
    Except Err MaskParts := do
  checkDicomSeg ext dicomElements
  let columns ←
    match dicomElements.x00280011 with
    | none => Except.error Err.missingColumns
    | some c => if c = 0 then Except.error Err.missingColumns else pure c
  let rows ←
    match dicomElements.x00280010 with
    | none => Except.error Err.missingRows
    | some r => if r = 0 then Except.error Err.missingRows else pure r
  let sliceSize := columns * rows
  let frames := getFrames dicomElements
  if frames ≠ (pixelBuffer.length : ℚ) / (sliceSize : ℚ) then
    Except.error (Err.frameCountBufferMismatch frames
      ((pixelBuffer.length : ℚ) / (sliceSize : ℚ)))
  let dimension ← getDimensionOrganization dicomElements
  let segSequence ←
    match dicomElements.x00620002 with
    | none => Except.error Err.missingSegmentSequence
    | some sq => pure sq
  let segPair ← readSegments ext segSequence
  let size := dicomElements.imageSize
  let shared := readSharedGroups dicomElements
  let perFrameFuncGroupSequence ←
    match dicomElements.x52009230 with
    | none => Except.error Err.missingPerFrameSequence
    | some sq => pure sq
  if frames ≠ (perFrameFuncGroupSequence.length : ℚ) then
    Except.error Err.frameCountSequenceMismatch
  let frameInfos := perFrameFuncGroupSequence.map (fun g => (getSegmentFrameInfo g).1)
  let acc ← accumulateFrameChecks frameInfos
    { framePosPats := [], imageOrientationPatient := shared.imageOrientationPatient,
      spacing := shared.spacing }
  let framePosPats := sortPosPat acc.framePosPats
  let spacingOrNull ←
    match acc.spacing with
    | none => Except.error Err.noSpacing
    | some sp => pure sp
  let imageOrientationPatient ←
    match acc.imageOrientationPatient with
    | none => Except.error Err.noOrientation
    | some o => pure o
  let spacing ←
    match spacingOrNull with
    | none => Except.error Err.typeError
    | some sp => pure sp
  let sliceSpacing := spacing.get? 2
  let posPats ←
    match addMissingPosPats sliceSpacing framePosPats with
    | none => Except.error Err.nonTermination
    | some l => pure l
  let numberOfSlices := posPats.length
  let mul := if segPair.2 then 3 else 1
  let bufferFn ← mergeFrames segPair.1 frameInfos posPats pixelBuffer sliceSize segPair.2
  let buffer := (List.range (mul * sliceSize * numberOfSlices)).map bufferFn
  pure
    { dimension := dimension
      seriesUID := dicomElements.x0020000E
      size := size
      spacing := spacing
      storeAsRGB := segPair.2
      imageOrientationPatient := imageOrientationPatient
      segments := segPair.1
      frameInfos := frameInfos
      posPats := posPats
      buffer := buffer
      numberOfSlices := numberOfSlices }

/-- dwv.image.MaskFactory.prototype.create: compute the parts, then build
the image. -/
def MaskFactory.create (ext : ExternalUtils) (dicomElements : DicomElements)
    (pixelBuffer : List ℚ) : Except Err MaskImage := do
  let parts ← createParts ext dicomElements pixelBuffer
  pure (assembleImage parts)

theorem create_error_of_parts (ext : ExternalUtils) (els : DicomElements)
    (pixelBuffer : List ℚ) (e : Err) (h : createParts ext els pixelBuffer = .error e) :
    MaskFactory.create ext els pixelBuffer = .error e := by
  unfold MaskFactory.create
  rw [h]
  rfl

/-- The element tree of the C8 buffer-length check: declared frame count 3
with 2-by-2 slices. -/
def c8ElsA : DicomElements :=
  { x00020010 := none, x00620001 := some "BINARY", x00209311 := none,
    x00209221 := some [{ x00209164 := "1.2.3" }], x00209222 := none,
    x00620002 := none, x00280010 := some 2, x00280011 := some 2,
    x00280008 := some 3, x52009229 := none, x52009230 := none,
    x0020000E := none, imageSize := [2, 2, 1] }

/-- C8: the decode reads the frame count, defaulting to 1 when the
number-of-frames tag is absent, and raises the frame-count-mismatch errors:
whenever the declared count differs from bufferLength / (rows × columns)
(after the earlier validator and row/column reads succeed), and whenever it
differs from the length of the per-frame functional groups sequence (after
the earlier stages succeed); concretely, declared frames = 3 with a buffer
of 2 × sliceSize elements is an error. -/
theorem c8_frame_count :
    (∀ els : DicomElements, els.x00280008 = none → getFrames els = 1) ∧
    (∀ (ext : ExternalUtils) (els : DicomElements) (pixelBuffer : List ℚ) (c r : ℕ),
        checkDicomSeg ext els = .ok () →
        els.x00280011 = some c → c ≠ 0 →
        els.x00280010 = some r → r ≠ 0 →
        getFrames els ≠ (pixelBuffer.length : ℚ) / ((c * r : ℕ) : ℚ) →
        MaskFactory.create ext els pixelBuffer =
          .error (.frameCountBufferMismatch (getFrames els)
            ((pixelBuffer.length : ℚ) / ((c * r : ℕ) : ℚ)))) ∧
    (∀ (ext : ExternalUtils) (els : DicomElements) (pixelBuffer : List ℚ) (c r : ℕ)
        (dim : DimensionInfo) (segSeq : List SegItem) (segPair : List Segment × Bool)
        (pframes : List FrameItem),
        checkDicomSeg ext els = .ok () →
        els.x00280011 = some c → c ≠ 0 →
        els.x00280010 = some r → r ≠ 0 →
        getFrames els = (pixelBuffer.length : ℚ) / ((c * r : ℕ) : ℚ) →
        getDimensionOrganization els = .ok dim →
        els.x00620002 = some segSeq →
        readSegments ext segSeq = .ok segPair →
        els.x52009230 = some pframes →
        getFrames els ≠ (pframes.length : ℚ) →
        MaskFactory.create ext els pixelBuffer = .error .frameCountSequenceMismatch) ∧
    MaskFactory.create extDemo c8ElsA [1, 1, 1, 1, 1, 1, 1, 1] =
      .error (.frameCountBufferMismatch 3 2) := by
  refine ⟨?_, ?_, ?_, ?_⟩
  · intro els h
    simp [getFrames, h]
  · intro ext els pixelBuffer c r hcheck h11 hc h10 hr hfr
    refine create_error_of_parts ext els pixelBuffer _ ?_
    simp only [createParts, hcheck, h11, h10, ok_bind, error_bind, pure_bind, if_neg hc,
      if_neg hr, if_pos hfr]
  · intro ext els pixelBuffer c r dim segSeq segPair pframes hcheck h11 hc h10 hr hfeq hdim
      hseg hrs hpf hne
    refine create_error_of_parts ext els pixelBuffer _ ?_
    simp only [createParts, hcheck, h11, h10, ok_bind, error_bind, pure_bind, if_neg hc,
      if_neg hr, if_neg (not_not_intro hfeq), hdim, hseg, hrs, hpf, if_pos hne]
  · with_unfolding_all rfl

/-- The CIELab segment sequence item used by the witnesses. -/
def demoSegItem : SegItem :=
  { x00620004 := 1, x00620005 := "seg1", x00620008 := "MANUAL",
    x00620009 := none, x0062000C := none, x0062000D := some [10, 20, 30] }

/-- The segment record that `getSegment extDemo demoSegItem` produces. -/
def demoSegment : Segment :=
  { number := 1, label := "seg1", algorithmType := "MANUAL", algorithmName := none,
    displayValue := some (.rgb { r := 10, g := 20, b := 30 }) }

/-- The element tree of the C8 witness for the per-frame length check: a
valid decode front end whose per-frame sequence is empty while the declared
frame count is 1. -/
def c8Els : DicomElements :=
  { x00020010 := none, x00620001 := some "BINARY", x00209311 := none,
    x00209221 := some [{ x00209164 := "1.2.3" }], x00209222 := none,
    x00620002 := some [demoSegItem],
    x00280010 := some 1, x00280011 := some 1, x00280008 := none,
    x52009229 := none, x52009230 := some [], x0020000E := none, imageSize := [1, 1, 1] }

/-- C8 witness: the two general parts of `c8_frame_count` applied at
concrete element trees. -/
theorem c8_frame_count_witness :
    MaskFactory.create extDemo c8ElsA [1, 1, 1, 1, 1, 1, 1, 1] =
      .error (.frameCountBufferMismatch (getFrames c8ElsA) ((8 : ℚ) / ((2 * 2 : ℕ) : ℚ))) ∧
    MaskFactory.create extDemo c8Els [0] = .error .frameCountSequenceMismatch := by
  constructor
  · exact c8_frame_count.2.1 extDemo c8ElsA [1, 1, 1, 1, 1, 1, 1, 1] 2 2 rfl rfl
      (by decide) rfl (by decide) (by with_unfolding_all decide)
  · exact c8_frame_count.2.2.1 extDemo c8Els [0] 1 1
      { organizations := ["1.2.3"], indices := [] } [demoSegItem] ([demoSegment], true)
      [] rfl rfl (by decide) rfl (by decide) (by with_unfolding_all decide)
      (by with_unfolding_all rfl) rfl (by with_unfolding_all rfl) rfl
      (by with_unfolding_all decide)

/-- C10: every successful decode carries the fixed metadata constants
Modality = SEG, SegmentationType = BINARY, DimensionOrganizationType = 3D
and BitsStored = 8, regardless of the input's values. -/
theorem c10_meta_constants :
    ∀ (ext : ExternalUtils) (els : DicomElements) (pixelBuffer : List ℚ) (img : MaskImage),
      MaskFactory.create ext els pixelBuffer = .ok img →
      img.meta.Modality = "SEG" ∧ img.meta.SegmentationType = "BINARY" ∧
      img.meta.DimensionOrganizationType = "3D" ∧ img.meta.BitsStored = 8 := by
  intro ext els pixelBuffer img h
  unfold MaskFactory.create at h
  cases hp : createParts ext els pixelBuffer with
  | error e =>
    rw [hp, error_bind] at h
    exact Except.noConfusion h
  | ok parts =>
    rw [hp, ok_bind] at h
    have himg : assembleImage parts = img := by
      injection h
    subst himg
    exact ⟨rfl, rfl, rfl, rfl⟩

/-- The shared functional group of the C10 witness: an identity orientation
and a unit spacing with through-plane component. -/
def c10Shared : FuncGroupItem :=
  { x00209116 := some [{ x00200037 :=
      [DicomVal.num 1, DicomVal.num 0, DicomVal.num 0,
       DicomVal.num 0, DicomVal.num 1, DicomVal.num 0] }]
    x00289110 := some [{ x00280030 := some (DicomVal.num 1, DicomVal.num 1)
                         x00180088 := some (DicomVal.num 1) }] }

/-- The per-frame functional group of the C10 witness. -/
def c10Frame : FrameItem :=
  { x00089124 := none
    x00209111 := { x00209157 := [1] }
    x0062000A := { x0062000B := 1 }
    x00209113 := { x00200032 := [DicomVal.num 0, DicomVal.num 0, DicomVal.num 0] }
    x00209116 := none
    x00289110 := none }

/-- The element tree of the C10 witness: a fully valid single-frame,
single-segment decode whose dimension organization type tag (0020,9311) is
absent. -/
def c10Els : DicomElements :=
  { x00020010 := none, x00620001 := some "BINARY", x00209311 := none,
    x00209221 := some [{ x00209164 := "1.2.3" }], x00209222 := none,
    x00620002 := some [demoSegItem],
    x00280010 := some 1, x00280011 := some 1, x00280008 := none,
    x52009229 := some [c10Shared], x52009230 := some [c10Frame],
    x0020000E := some "1.2.3.4", imageSize := [1, 1, 1] }

/-- The image that the C10 witness decode produces. -/
def c10Img : MaskImage :=
  (MaskFactory.create extDemo c10Els [0]).toOption.getD (assembleImage
    { dimension := { organizations := [], indices := [] }, seriesUID := none, size := [],
      spacing := [], storeAsRGB := false, imageOrientationPatient := [], segments := [],
      frameInfos := [], posPats := [], buffer := [], numberOfSlices := 0 })

/-- C10 witness: `c10_meta_constants` applied to a concrete successful
decode whose input lacks the dimension organization type tag — the metadata
still reports 3D, with the other constants. -/
theorem c10_meta_constants_witness :
    c10Els.x00209311 = none ∧
    MaskFactory.create extDemo c10Els [0] = Except.ok c10Img ∧
    c10Img.meta.Modality = "SEG" ∧ c10Img.meta.SegmentationType = "BINARY" ∧
    c10Img.meta.DimensionOrganizationType = "3D" ∧ c10Img.meta.BitsStored = 8 := by
  refine ⟨rfl, ?_, ?_⟩
  · with_unfolding_all rfl
  · exact c10_meta_constants extDemo c10Els [0] c10Img (by with_unfolding_all rfl)
